import Mathlib

/-!
Verification of the SATWNDBUFR satellite-wind extraction pipeline.

The development shallowly embeds the quality-screening (pre_qc), packed-field
column resolution, observation-type classification and aggregation logic of
  src/python_bufr/process_satwnds_dependencies.py
  src/python_bufr/extract_bulk_stats.py
into Lean.  Numpy float vectors are modelled as lists of rationals, numpy
index vectors as lists of naturals.  The numpy primitives used by the source
(np.where over a condition, np.setdiff1d, np.unique) are modelled first;
each tank-variant routine is then a direct transcription.
-/

namespace SatwndBufr

/-- Insertion of an element into a sorted list; building block of the sort
used to model the sorted outputs of np.setdiff1d and np.unique. -/
def insertSorted {α : Type} [LinearOrder α] (x : α) : List α → List α
  | [] => [x]
  | y :: ys => if x ≤ y then x :: y :: ys else y :: insertSorted x ys

/-- Insertion sort, modelling the ascending order of numpy set-routine
results. -/
def sortList {α : Type} [LinearOrder α] (l : List α) : List α :=
  l.foldr insertSorted []

/-- Model of np.setdiff1d(a, b): the sorted unique values of a that are not
in b. -/
def setdiff1d (a b : List Nat) : List Nat :=
  (sortList a.dedup).filter (fun x => decide (x ∉ b))

/-- Model of np.where(cond(v)) for a 1-d vector v: the indices of v whose
entry satisfies the condition, in ascending order. -/
def npWhere (v : List ℚ) (p : ℚ → Bool) : List Nat :=
  (List.range v.length).filter (fun i => p (v.getD i 0))

/-- Model of np.unique for a 1-d float vector: sorted distinct values. -/
def npUnique (l : List ℚ) : List ℚ :=
  (sortList l).dedup

/-- Column i of a packed (n, k) array, as in y[:, i].squeeze(); entries of
rows shorter than i+1 read as 0 (never exercised: the source arrays are
rectangular). -/
def column (m : List (List ℚ)) (i : Nat) : List ℚ :=
  m.map (fun row => row.getD i 0)

/-- Model of the numpy scatter assignment l[idxs] = y on an int vector. -/
def scatter (l : List Int) (idxs : List Nat) (y : Int) : List Int :=
  (List.range l.length).map (fun i => if i ∈ idxs then y else l.getD i 0)

/- Basic lemmas about the primitives. -/

theorem mem_insertSorted {α : Type} [LinearOrder α] {x y : α} {l : List α} :
    y ∈ insertSorted x l ↔ y = x ∨ y ∈ l := by
  induction l with
  | nil => simp [insertSorted]
  | cons a l ih =>
      by_cases h : x ≤ a
      · simp only [insertSorted, if_pos h, List.mem_cons]
      · simp only [insertSorted, if_neg h, List.mem_cons, ih]
        tauto

theorem mem_sortList {α : Type} [LinearOrder α] {x : α} {l : List α} :
    x ∈ sortList l ↔ x ∈ l := by
  induction l with
  | nil => simp [sortList]
  | cons a l ih =>
      simp only [sortList, List.foldr_cons] at *
      rw [mem_insertSorted, ih, List.mem_cons]

theorem length_insertSorted {α : Type} [LinearOrder α] (x : α) (l : List α) :
    (insertSorted x l).length = l.length + 1 := by
  induction l with
  | nil => rfl
  | cons a l ih =>
      by_cases h : x ≤ a
      · simp [insertSorted, h]
      · simp [insertSorted, h, ih]

theorem length_sortList {α : Type} [LinearOrder α] (l : List α) :
    (sortList l).length = l.length := by
  induction l with
  | nil => rfl
  | cons a l ih =>
      simp only [sortList, List.foldr_cons] at *
      rw [length_insertSorted, ih, List.length_cons]

theorem insertSorted_of_le {α : Type} [LinearOrder α] {x : α} {l : List α}
    (h : ∀ b ∈ l, x ≤ b) : insertSorted x l = x :: l := by
  cases l with
  | nil => rfl
  | cons a l => simp [insertSorted, h a (by simp)]

theorem sortList_of_sorted {α : Type} [LinearOrder α] {l : List α}
    (h : l.Pairwise (· ≤ ·)) : sortList l = l := by
  induction l with
  | nil => rfl
  | cons a l ih =>
      rcases List.pairwise_cons.mp h with ⟨h1, h2⟩
      simp only [sortList, List.foldr_cons] at *
      rw [ih h2]
      exact insertSorted_of_le h1

theorem setdiff1d_eq_filter {a b : List Nat} (ha : a.Pairwise (· < ·)) :
    setdiff1d a b = a.filter (fun x => decide (x ∉ b)) := by
  have hnd : a.Nodup := ha.imp (fun h => Nat.ne_of_lt h)
  rw [setdiff1d, List.dedup_eq_self.mpr hnd,
    sortList_of_sorted (ha.imp (fun h => Nat.le_of_lt h))]

theorem mem_setdiff1d {a b : List Nat} {x : Nat} :
    x ∈ setdiff1d a b ↔ x ∈ a ∧ x ∉ b := by
  simp [setdiff1d, List.mem_filter, mem_sortList, List.mem_dedup]

theorem mem_npWhere {v : List ℚ} {p : ℚ → Bool} {i : Nat} :
    i ∈ npWhere v p ↔ i < v.length ∧ p (v.getD i 0) = true := by
  simp [npWhere, List.mem_filter, List.mem_range]

theorem length_filter_partition {α : Type} (l : List α) (p : α → Bool) :
    (l.filter p).length + (l.filter (fun a => !(p a))).length = l.length := by
  induction l with
  | nil => rfl
  | cons a l ih =>
      by_cases h : p a = true
      · simp only [List.filter_cons, h, if_pos, Bool.not_true, if_neg,
          Bool.false_eq_true, not_false_eq_true, List.length_cons]
        omega
      · simp only [Bool.not_eq_true] at h
        simp only [List.filter_cons, h, Bool.not_false, if_pos, if_neg,
          Bool.false_eq_true, not_false_eq_true, List.length_cons]
        omega

/- Threshold predicates of the pre_qc checks, transcribed from
process_satwnds_dependencies.py.  Each predicate is the pass condition
placed inside np.where in the corresponding check. -/

/-- Zenith angle pass condition (angMax = 68.): zen <= angMax. -/
def zenPass (v : ℚ) : Bool := decide (v ≤ 68)

/-- Quality indicator pass condition ((qin >= qiMin) & (qin <= qiMax)) with
qiMax = 100; qiMin is 90 for the NC00503x screens and 85 for the
NC00504x and NC00506x screens. -/
def qiPass (qiMin : ℚ) (v : ℚ) : Bool := decide (qiMin ≤ v) && decide (v ≤ 100)

/-- Pressure pass condition pre >= preMin (preMin = 15000. generic,
70000. for NC005032). -/
def prePassMin (preMin : ℚ) (v : ℚ) : Bool := decide (preMin ≤ v)

/-- Banded pressure pass condition (pre >= preMin) & (pre <= preMax) of the
NC005034 screen (preMin = 15000., preMax = 30000.). -/
def prePassBand (preMin preMax : ℚ) (v : ℚ) : Bool :=
  decide (preMin ≤ v) && decide (v ≤ preMax)

/-- Coefficient of variation pass condition (cov >= 0.04) & (cov <= 0.50). -/
def covPass (v : ℚ) : Bool := decide (0.04 ≤ v) && decide (v ≤ 0.50)

/-- Expected-error-normalized pass condition expErrNorm <= eeMax with
eeMax = 0.9. -/
def errNormPass (v : ℚ) : Bool := decide (v ≤ 0.9)

/-- Wind computation method exclusion list of the JMA and EUMETSAT style
screens: wcmExcludeList = [5]. -/
def wcmExcludeList : List ℚ := [5]

/-- Wind computation method pass condition
np.isin(wcm, wcmExcludeList) == False. -/
def wcmPass (v : ℚ) : Bool := !(wcmExcludeList.contains v)

/-- The expErrNorm vector: initialized to 100. everywhere, overwritten with
(10. - 0.1 * exp) / spd at the indices where spd > 0.1 (np vector
assignment expErrNorm[speedExists] = np.divide(...)). -/
def errNormVec (spd exp : List ℚ) : List ℚ :=
  (List.range exp.length).map (fun i =>
    if 0.1 < spd.getD i 0 then (10 - 0.1 * exp.getD i 0) / spd.getD i 0
    else 100)

/-- One pre_qc check step: checkFail = np.setdiff1d(idxAll, checkPass);
idxPass = np.setdiff1d(idxPass, checkFail). -/
def qcStep (idxAll idxPass checkPass : List Nat) : List Nat :=
  setdiff1d idxPass (setdiff1d idxAll checkPass)

/-- The shared shape of every pre_qc routine in the source: idxAll is the
full index range, idxPass starts as a copy of idxAll and is reduced by one
qcStep per check (in source order), and idxFail is
np.setdiff1d(idxAll, idxPass) at the end. -/
def pre_qc_chain (idxAll : List Nat) (ws : List (List Nat)) :
    List Nat × List Nat :=
  let idxPass := ws.foldl (fun p w => qcStep idxAll p w) idxAll
  (idxPass, setdiff1d idxAll idxPass)

/-- pre_qc of process_NC005030 (GOES LWIR AMVs); the pre_qc of
process_NC005039 is a verbatim copy in the source.  Checks in source order:
zenith angle, quality indicator (qiMin = 90), pressure (preMin = 15000.),
coefficient of variation, exp-errnorm. -/
def pre_qc_NC005030 (pre spd zen qin cov exp : List ℚ) :
    List Nat × List Nat :=
  pre_qc_chain (List.range pre.length)
    [ npWhere zen zenPass,
      npWhere qin (qiPass 90),
      npWhere pre (prePassMin 15000),
      npWhere cov covPass,
      npWhere (errNormVec spd exp) errNormPass ]

/-- pre_qc of process_NC005031 (GOES WVDL AMVs): as NC005030 but with no
coefficient of variation check. -/
def pre_qc_NC005031 (pre spd zen qin exp : List ℚ) :
    List Nat × List Nat :=
  pre_qc_chain (List.range pre.length)
    [ npWhere zen zenPass,
      npWhere qin (qiPass 90),
      npWhere pre (prePassMin 15000),
      npWhere (errNormVec spd exp) errNormPass ]

/-- pre_qc of process_NC005032 (GOES VIS AMVs): as NC005030 but with
preMin = 70000. in the pressure check. -/
def pre_qc_NC005032 (pre spd zen qin cov exp : List ℚ) :
    List Nat × List Nat :=
  pre_qc_chain (List.range pre.length)
    [ npWhere zen zenPass,
      npWhere qin (qiPass 90),
      npWhere pre (prePassMin 70000),
      npWhere cov covPass,
      npWhere (errNormVec spd exp) errNormPass ]

/-- pre_qc of process_NC005034 (GOES WVCT AMVs): as NC005030 but with the
banded pressure check (preMin = 15000., preMax = 30000.). -/
def pre_qc_NC005034 (pre spd zen qin cov exp : List ℚ) :
    List Nat × List Nat :=
  pre_qc_chain (List.range pre.length)
    [ npWhere zen zenPass,
      npWhere qin (qiPass 90),
      npWhere pre (prePassBand 15000 30000),
      npWhere cov covPass,
      npWhere (errNormVec spd exp) errNormPass ]

/-- pre_qc of process_NC005044 (JMA AMVs); the pre_qc routines of
process_NC005045, process_NC005046, process_NC005067, process_NC005068 and
process_NC005069 are verbatim copies in the source.  Checks in source
order: zenith angle, quality indicator (qiMin = 85), wind computation
method. -/
def pre_qc_NC005044 (zen qin wcm : List ℚ) : List Nat × List Nat :=
  pre_qc_chain (List.range zen.length)
    [ npWhere zen zenPass,
      npWhere qin (qiPass 85),
      npWhere wcm wcmPass ]

/- Normal form of the check chain. -/

theorem qcStep_eq_filter {n : Nat} {p w : List Nat}
    (hp : p.Pairwise (· < ·)) (hsub : ∀ i ∈ p, i < n) :
    qcStep (List.range n) p w = p.filter (fun i => decide (i ∈ w)) := by
  rw [qcStep, setdiff1d_eq_filter hp]
  apply List.filter_congr
  intro i hi
  have hin : i < n := hsub i hi
  have : i ∈ setdiff1d (List.range n) w ↔ i ∉ w := by
    rw [mem_setdiff1d, List.mem_range]
    tauto
  rcases Decidable.em (i ∈ w) with h | h
  · simp [this, h]
  · simp [this, h]

theorem foldl_qcStep_eq {n : Nat} (ws : List (List Nat)) (p : List Nat)
    (hp : p.Pairwise (· < ·)) (hsub : ∀ i ∈ p, i < n) :
    ws.foldl (fun q w => qcStep (List.range n) q w) p =
      p.filter (fun i => decide (∀ w ∈ ws, i ∈ w)) := by
  induction ws generalizing p with
  | nil => simp
  | cons w ws ih =>
      rw [List.foldl_cons, qcStep_eq_filter hp hsub,
        ih (p.filter (fun i => decide (i ∈ w)))
          (hp.filter (fun i => decide (i ∈ w)))
          (fun i hi => hsub i (List.mem_of_mem_filter hi)),
        List.filter_filter]
      apply List.filter_congr
      intro i _
      by_cases h1 : i ∈ w <;> by_cases h2 : (∀ v ∈ ws, i ∈ v) <;>
        simp [h1, h2, List.forall_mem_cons]

theorem pre_qc_chain_pass_eq (n : Nat) (ws : List (List Nat)) :
    (pre_qc_chain (List.range n) ws).1 =
      (List.range n).filter (fun i => decide (∀ w ∈ ws, i ∈ w)) := by
  exact foldl_qcStep_eq ws (List.range n) (List.pairwise_lt_range n)
    (fun i hi => List.mem_range.mp hi)

theorem pre_qc_chain_fail_eq (n : Nat) (ws : List (List Nat)) :
    (pre_qc_chain (List.range n) ws).2 =
      (List.range n).filter (fun i => !(decide (∀ w ∈ ws, i ∈ w))) := by
  have h2 : (pre_qc_chain (List.range n) ws).2 =
      setdiff1d (List.range n) ((pre_qc_chain (List.range n) ws).1) := rfl
  rw [h2, pre_qc_chain_pass_eq, setdiff1d_eq_filter (List.pairwise_lt_range n)]
  apply List.filter_congr
  intro i hi
  rcases Decidable.em (∀ w ∈ ws, i ∈ w) with h | h
  · have hm : i ∈ (List.range n).filter (fun j => decide (∀ w ∈ ws, j ∈ w)) := by
      simp only [List.mem_filter, decide_eq_true_eq]
      exact ⟨hi, h⟩
    simp [hm]
    exact h
  · have hm : i ∉ (List.range n).filter (fun j => decide (∀ w ∈ ws, j ∈ w)) := by
      simp only [List.mem_filter, decide_eq_true_eq]
      tauto
    simp [hm, h]

theorem mem_pre_qc_chain_pass {n : Nat} {ws : List (List Nat)} {i : Nat} :
    i ∈ (pre_qc_chain (List.range n) ws).1 ↔ i < n ∧ ∀ w ∈ ws, i ∈ w := by
  rw [pre_qc_chain_pass_eq]
  simp [List.mem_filter, List.mem_range]

theorem mem_pre_qc_chain_fail {n : Nat} {ws : List (List Nat)} {i : Nat} :
    i ∈ (pre_qc_chain (List.range n) ws).2 ↔
      i < n ∧ ¬(∀ w ∈ ws, i ∈ w) := by
  rw [pre_qc_chain_fail_eq]
  simp [List.mem_filter, List.mem_range]

/- Reference set semantics of the quality screen, written from the words of
the specification (section 4.2): checks are applied independently, each
failure is tracked against the full index set, and
pass = allIndices minus union(failSets). -/

/-- Specification-side per-check fail sets: for each check the subset of the
full index set failing it. -/
def spec_failSets (idxAll : List Nat) (ws : List (List Nat)) :
    List (List Nat) :=
  ws.map (fun w => idxAll.filter (fun i => decide (i ∉ w)))

/-- Specification-side union of the per-check fail sets. -/
def spec_union (ss : List (List Nat)) : List Nat :=
  ss.foldr (fun s acc => s ∪ acc) []

/-- Specification-side pass set: allIndices minus the union of the fail
sets. -/
def spec_pass_set (idxAll : List Nat) (ws : List (List Nat)) : List Nat :=
  idxAll.filter (fun i => decide (i ∉ spec_union (spec_failSets idxAll ws)))

theorem mem_spec_union {ss : List (List Nat)} {x : Nat} :
    x ∈ spec_union ss ↔ ∃ s ∈ ss, x ∈ s := by
  induction ss with
  | nil => simp [spec_union]
  | cons s ss ih =>
      simp only [spec_union, List.foldr_cons] at *
      rw [List.mem_union_iff, ih]
      simp

theorem pre_qc_chain_eq_spec (n : Nat) (ws : List (List Nat)) :
    (pre_qc_chain (List.range n) ws).1 = spec_pass_set (List.range n) ws := by
  rw [pre_qc_chain_pass_eq, spec_pass_set]
  apply List.filter_congr
  intro i hi
  rcases Decidable.em (i ∈ spec_union (spec_failSets (List.range n) ws))
    with h | h
  · rcases mem_spec_union.mp h with ⟨s, hs, hin⟩
    rcases List.mem_map.mp hs with ⟨w, hw, rfl⟩
    rcases List.mem_filter.mp hin with ⟨_, hnot⟩
    simp only [decide_eq_true_eq] at hnot
    have : ¬(∀ w ∈ ws, i ∈ w) := fun hall => hnot (hall w hw)
    simp [h, this]
  · have : ∀ w ∈ ws, i ∈ w := by
      intro w hw
      by_contra hni
      exact h (mem_spec_union.mpr ⟨_, List.mem_map_of_mem _ hw,
        List.mem_filter.mpr ⟨hi, by simpa using hni⟩⟩)
    simp [h]
    exact this

theorem spec_pass_set_perm (idxAll : List Nat) {ws ws' : List (List Nat)}
    (h : ws.Perm ws') : spec_pass_set idxAll ws = spec_pass_set idxAll ws' := by
  unfold spec_pass_set
  apply List.filter_congr
  intro i _
  have hiff : i ∈ spec_union (spec_failSets idxAll ws) ↔
      i ∈ spec_union (spec_failSets idxAll ws') := by
    rw [mem_spec_union, mem_spec_union]
    constructor
    · rintro ⟨s, hs, hin⟩
      exact ⟨s, ((h.map _).mem_iff).mp hs, hin⟩
    · rintro ⟨s, hs, hin⟩
      exact ⟨s, ((h.map _).mem_iff).mpr hs, hin⟩
  rcases Decidable.em (i ∈ spec_union (spec_failSets idxAll ws)) with hc | hc
  · simp [hc, hiff.mp hc]
  · simp [hc]
    exact fun c => hc (hiff.mpr c)

/-- Partition property of a pass/fail pair over the index range 0..n-1. -/
def partitionOK (pr : List Nat × List Nat) (n : Nat) : Prop :=
  pr.1.Disjoint pr.2 ∧ pr.1.length + pr.2.length = n ∧
    ∀ i : Nat, (i ∈ pr.1 ∨ i ∈ pr.2) ↔ i < n

theorem pre_qc_chain_partition (n : Nat) (ws : List (List Nat)) :
    partitionOK (pre_qc_chain (List.range n) ws) n := by
  refine ⟨?_, ?_, ?_⟩
  · intro a ha hb
    rcases mem_pre_qc_chain_pass.mp ha with ⟨_, hall⟩
    rcases mem_pre_qc_chain_fail.mp hb with ⟨_, hnot⟩
    exact hnot hall
  · rw [pre_qc_chain_pass_eq, pre_qc_chain_fail_eq]
    have := length_filter_partition (List.range n)
      (fun i => decide (∀ w ∈ ws, i ∈ w))
    rw [List.length_range] at this
    exact this
  · intro i
    rw [mem_pre_qc_chain_pass, mem_pre_qc_chain_fail]
    constructor
    · rintro (⟨hi, _⟩ | ⟨hi, _⟩) <;> exact hi
    · intro hi
      rcases Decidable.em (∀ w ∈ ws, i ∈ w) with h | h
      · exact Or.inl ⟨hi, h⟩
      · exact Or.inr ⟨hi, h⟩

/-- Claim C1: for every tank-variant quality screen applied to input vectors
of common length N with N >= 1, the returned idxPass and idxFail are
disjoint and their sizes sum to N, their union being the full index range
0..N-1.  One conjunct per distinct pre_qc body in the source (the NC005039
screen is a verbatim copy of the NC005030 one, and the NC005045, NC005046,
NC005067, NC005068 and NC005069 screens are verbatim copies of the
NC005044 one). -/
theorem C1_partition_invariant :
    (∀ (pre spd zen qin cov exp : List ℚ) (n : Nat), 1 ≤ n →
      pre.length = n → spd.length = n → zen.length = n → qin.length = n →
      cov.length = n → exp.length = n →
      partitionOK (pre_qc_NC005030 pre spd zen qin cov exp) n) ∧
    (∀ (pre spd zen qin exp : List ℚ) (n : Nat), 1 ≤ n →
      pre.length = n → spd.length = n → zen.length = n → qin.length = n →
      exp.length = n →
      partitionOK (pre_qc_NC005031 pre spd zen qin exp) n) ∧
    (∀ (pre spd zen qin cov exp : List ℚ) (n : Nat), 1 ≤ n →
      pre.length = n → spd.length = n → zen.length = n → qin.length = n →
      cov.length = n → exp.length = n →
      partitionOK (pre_qc_NC005032 pre spd zen qin cov exp) n) ∧
    (∀ (pre spd zen qin cov exp : List ℚ) (n : Nat), 1 ≤ n →
      pre.length = n → spd.length = n → zen.length = n → qin.length = n →
      cov.length = n → exp.length = n →
      partitionOK (pre_qc_NC005034 pre spd zen qin cov exp) n) ∧
    (∀ (zen qin wcm : List ℚ) (n : Nat), 1 ≤ n →
      zen.length = n → qin.length = n → wcm.length = n →
      partitionOK (pre_qc_NC005044 zen qin wcm) n) := by
  refine ⟨?_, ?_, ?_, ?_, ?_⟩
  · intro pre spd zen qin cov exp n _ h1 _ _ _ _ _
    simp only [pre_qc_NC005030, h1]
    exact pre_qc_chain_partition n _
  · intro pre spd zen qin exp n _ h1 _ _ _ _
    simp only [pre_qc_NC005031, h1]
    exact pre_qc_chain_partition n _
  · intro pre spd zen qin cov exp n _ h1 _ _ _ _ _
    simp only [pre_qc_NC005032, h1]
    exact pre_qc_chain_partition n _
  · intro pre spd zen qin cov exp n _ h1 _ _ _ _ _
    simp only [pre_qc_NC005034, h1]
    exact pre_qc_chain_partition n _
  · intro zen qin wcm n _ h1 _ _
    simp only [pre_qc_NC005044, h1]
    exact pre_qc_chain_partition n _

/-- Witness for C1 at a concrete one-observation input. -/
theorem C1_partition_invariant_witness :
    1 ≤ 1 ∧ partitionOK (pre_qc_NC005030 [20000] [20] [10] [95] [0.1] [50]) 1 :=
  ⟨Nat.le_refl 1,
    C1_partition_invariant.1 [20000] [20] [10] [95] [0.1] [50] 1
      (Nat.le_refl 1) rfl rfl rfl rfl rfl rfl⟩

/-- Claim C2: for every tank-variant quality screen, the pass set obtained
from the sequence of per-check set subtractions equals the reference
set-semantics definition pass = allIndices minus union(failSets); the
reference definition is moreover independent of check order.  One conjunct
per distinct pre_qc body in the source plus the order-independence
conjunct. -/
theorem C2_set_semantics :
    (∀ pre spd zen qin cov exp : List ℚ,
      (pre_qc_NC005030 pre spd zen qin cov exp).1 =
        spec_pass_set (List.range pre.length)
          [ npWhere zen zenPass, npWhere qin (qiPass 90),
            npWhere pre (prePassMin 15000), npWhere cov covPass,
            npWhere (errNormVec spd exp) errNormPass ]) ∧
    (∀ pre spd zen qin exp : List ℚ,
      (pre_qc_NC005031 pre spd zen qin exp).1 =
        spec_pass_set (List.range pre.length)
          [ npWhere zen zenPass, npWhere qin (qiPass 90),
            npWhere pre (prePassMin 15000),
            npWhere (errNormVec spd exp) errNormPass ]) ∧
    (∀ pre spd zen qin cov exp : List ℚ,
      (pre_qc_NC005032 pre spd zen qin cov exp).1 =
        spec_pass_set (List.range pre.length)
          [ npWhere zen zenPass, npWhere qin (qiPass 90),
            npWhere pre (prePassMin 70000), npWhere cov covPass,
            npWhere (errNormVec spd exp) errNormPass ]) ∧
    (∀ pre spd zen qin cov exp : List ℚ,
      (pre_qc_NC005034 pre spd zen qin cov exp).1 =
        spec_pass_set (List.range pre.length)
          [ npWhere zen zenPass, npWhere qin (qiPass 90),
            npWhere pre (prePassBand 15000 30000), npWhere cov covPass,
            npWhere (errNormVec spd exp) errNormPass ]) ∧
    (∀ zen qin wcm : List ℚ,
      (pre_qc_NC005044 zen qin wcm).1 =
        spec_pass_set (List.range zen.length)
          [ npWhere zen zenPass, npWhere qin (qiPass 85),
            npWhere wcm wcmPass ]) ∧
    (∀ (idxAll : List Nat) (ws ws' : List (List Nat)), ws.Perm ws' →
      spec_pass_set idxAll ws = spec_pass_set idxAll ws') := by
  refine ⟨?_, ?_, ?_, ?_, ?_, ?_⟩
  · intro pre spd zen qin cov exp
    exact pre_qc_chain_eq_spec pre.length _
  · intro pre spd zen qin exp
    exact pre_qc_chain_eq_spec pre.length _
  · intro pre spd zen qin cov exp
    exact pre_qc_chain_eq_spec pre.length _
  · intro pre spd zen qin cov exp
    exact pre_qc_chain_eq_spec pre.length _
  · intro zen qin wcm
    exact pre_qc_chain_eq_spec zen.length _
  · intro idxAll ws ws' h
    exact spec_pass_set_perm idxAll h

/-- Witness for C2: order independence at a concrete swapped check pair. -/
theorem C2_set_semantics_witness :
    spec_pass_set [0, 1] [[0], [0, 1]] = spec_pass_set [0, 1] [[0, 1], [0]] :=
  C2_set_semantics.2.2.2.2.2 [0, 1] [[0], [0, 1]] [[0, 1], [0]]
    (List.Perm.swap _ _ _)

/- Value-level lemmas for the exp-errnorm check. -/

theorem errNormVec_length (spd exp : List ℚ) :
    (errNormVec spd exp).length = exp.length := by
  simp [errNormVec]

theorem errNormVec_getD {spd exp : List ℚ} {i : Nat} (hi : i < exp.length) :
    (errNormVec spd exp).getD i 0 =
      if 0.1 < spd.getD i 0 then (10 - 0.1 * exp.getD i 0) / spd.getD i 0
      else 100 := by
  have hlen : i < (errNormVec spd exp).length := by
    rw [errNormVec_length]
    exact hi
  rw [List.getD_eq_getElem _ _ hlen]
  simp [errNormVec]

/-- Claim C3: in the expected-error-normalized check (shared verbatim by the
NC005030, NC005031, NC005032, NC005034 and NC005039 screens), an
observation with speed at most 0.1 has expErrNorm = 100 regardless of the
expected error and fails the check; an observation with speed above 0.1
has expErrNorm = (10 - 0.1 * exp) / spd and fails the check exactly when
that value exceeds 0.9. -/
theorem C3_errnorm_check :
    ∀ (spd exp : List ℚ) (i : Nat), i < exp.length →
      (spd.getD i 0 ≤ 0.1 →
        (errNormVec spd exp).getD i 0 = 100 ∧
        errNormPass ((errNormVec spd exp).getD i 0) = false) ∧
      (0.1 < spd.getD i 0 →
        (errNormVec spd exp).getD i 0 =
          (10 - 0.1 * exp.getD i 0) / spd.getD i 0 ∧
        (errNormPass ((errNormVec spd exp).getD i 0) = false ↔
          0.9 < (10 - 0.1 * exp.getD i 0) / spd.getD i 0)) := by
  intro spd exp i hi
  constructor
  · intro hle
    have h100 : (errNormVec spd exp).getD i 0 = 100 := by
      rw [errNormVec_getD hi, if_neg (not_lt.mpr hle)]
    refine ⟨h100, ?_⟩
    rw [h100, errNormPass]
    norm_num
  · intro hlt
    have hv : (errNormVec spd exp).getD i 0 =
        (10 - 0.1 * exp.getD i 0) / spd.getD i 0 := by
      rw [errNormVec_getD hi, if_pos hlt]
    refine ⟨hv, ?_⟩
    rw [hv, errNormPass]
    simp [not_le]

/-- Witness for C3 at a concrete input with speed 0.05 below the floor. -/
theorem C3_errnorm_check_witness :
    (0 : Nat) < ([(7 : ℚ), 50]).length ∧ ((0.05 : ℚ) ≤ 0.1) ∧
    (errNormVec [0.05, 20] [7, 50]).getD 0 0 = 100 ∧
    errNormPass ((errNormVec [0.05, 20] [7, 50]).getD 0 0) = false := by
  refine ⟨by norm_num, by norm_num, ?_⟩
  exact (C3_errnorm_check [0.05, 20] [7, 50] 0 (by norm_num)).1 (by norm_num)

/-- Claim C10: the exp-errnorm division is guarded by spd > 0.1, so the
screen never divides by zero and the expErrNorm vector is fully defined for
every input, including observations with speed exactly 0 (those keep the
initialization value 100). -/
theorem C10_division_guard :
    ∀ spd exp : List ℚ,
      (errNormVec spd exp).length = exp.length ∧
      (∀ i : Nat, 0.1 < spd.getD i 0 → spd.getD i 0 ≠ 0) ∧
      (∀ i : Nat, i < exp.length → spd.getD i 0 = 0 →
        (errNormVec spd exp).getD i 0 = 100) := by
  intro spd exp
  refine ⟨errNormVec_length spd exp, ?_, ?_⟩
  · intro i h
    have hpos : (0 : ℚ) < spd.getD i 0 := lt_trans (by norm_num) h
    exact ne_of_gt hpos
  · intro i hi h0
    rw [errNormVec_getD hi, if_neg]
    rw [h0]
    norm_num

/-- Witness for C10 at a concrete zero-speed observation. -/
theorem C10_division_guard_witness :
    (0 : Nat) < ([(3 : ℚ)]).length ∧ (([(0 : ℚ)]).getD 0 0 = 0) ∧
    (errNormVec [(0 : ℚ)] [(3 : ℚ)]).getD 0 0 = 100 := by
  refine ⟨by norm_num, by norm_num, ?_⟩
  exact (C10_division_guard [0] [3]).2.2 0 (by norm_num) (by norm_num)

/-- Claim C6: the zenith-angle check passes an observation at exactly 68.0
degrees and fails one strictly above 68.0; on the five-observation batch
with zenith angles [10, 70, 30, 68, 90] and all other signals passing,
the NC005030 screen returns idxPass = [0, 2, 3] and idxFail = [1, 4]. -/
theorem C6_zenith_boundary :
    (∀ v : ℚ, zenPass v = true ↔ v ≤ 68) ∧
    zenPass 68 = true ∧
    (∀ v : ℚ, 68 < v → zenPass v = false) ∧
    pre_qc_NC005030 [20000, 20000, 20000, 20000, 20000] [20, 20, 20, 20, 20]
        [10, 70, 30, 68, 90] [95, 95, 95, 95, 95] [0.1, 0.1, 0.1, 0.1, 0.1]
        [50, 50, 50, 50, 50] = ([0, 2, 3], [1, 4]) := by
  refine ⟨?_, ?_, ?_, ?_⟩
  · intro v
    simp [zenPass]
  · simp [zenPass]
  · intro v hv
    simp [zenPass, not_le.mpr hv]
  · have hzen : npWhere [10, 70, 30, 68, 90] zenPass = [0, 2, 3] := by
      norm_num [npWhere, zenPass, List.filter]
    have hqi : npWhere [95, 95, 95, 95, 95] (qiPass 90) = [0, 1, 2, 3, 4] := by
      norm_num [npWhere, qiPass, List.filter]
    have hpre : npWhere [20000, 20000, 20000, 20000, 20000]
        (prePassMin 15000) = [0, 1, 2, 3, 4] := by
      norm_num [npWhere, prePassMin, List.filter]
    have hcov : npWhere [0.1, 0.1, 0.1, 0.1, 0.1] covPass = [0, 1, 2, 3, 4] := by
      norm_num [npWhere, covPass, List.filter]
    have herr : npWhere (errNormVec [20, 20, 20, 20, 20] [50, 50, 50, 50, 50])
        errNormPass = [0, 1, 2, 3, 4] := by
      norm_num [npWhere, errNormVec, errNormPass, List.filter]
    simp only [pre_qc_NC005030]
    rw [hzen, hqi, hpre, hcov, herr]
    decide

/-- Witness for C6: a zenith angle strictly above the boundary fails. -/
theorem C6_zenith_boundary_witness : zenPass 70 = false :=
  C6_zenith_boundary.2.2.1 70 (by norm_num)

/- Per-variant characterizations of idxFail membership, used for the
pressure-floor claim. -/

theorem mem_fail_NC005030 {pre spd zen qin cov exp : List ℚ} {n i : Nat}
    (h1 : pre.length = n) (h2 : spd.length = n) (h3 : zen.length = n)
    (h4 : qin.length = n) (h5 : cov.length = n) (h6 : exp.length = n)
    (hi : i < n) :
    i ∈ (pre_qc_NC005030 pre spd zen qin cov exp).2 ↔
      ¬(zenPass (zen.getD i 0) = true ∧ qiPass 90 (qin.getD i 0) = true ∧
        prePassMin 15000 (pre.getD i 0) = true ∧
        covPass (cov.getD i 0) = true ∧
        errNormPass ((errNormVec spd exp).getD i 0) = true) := by
  have herrlen : (errNormVec spd exp).length = n := by
    rw [errNormVec_length]
    exact h6
  simp only [pre_qc_NC005030, h1]
  rw [mem_pre_qc_chain_fail]
  simp [List.forall_mem_cons, mem_npWhere, h1, h2, h3, h4, h5, herrlen, hi]

theorem mem_fail_NC005032 {pre spd zen qin cov exp : List ℚ} {n i : Nat}
    (h1 : pre.length = n) (h2 : spd.length = n) (h3 : zen.length = n)
    (h4 : qin.length = n) (h5 : cov.length = n) (h6 : exp.length = n)
    (hi : i < n) :
    i ∈ (pre_qc_NC005032 pre spd zen qin cov exp).2 ↔
      ¬(zenPass (zen.getD i 0) = true ∧ qiPass 90 (qin.getD i 0) = true ∧
        prePassMin 70000 (pre.getD i 0) = true ∧
        covPass (cov.getD i 0) = true ∧
        errNormPass ((errNormVec spd exp).getD i 0) = true) := by
  have herrlen : (errNormVec spd exp).length = n := by
    rw [errNormVec_length]
    exact h6
  simp only [pre_qc_NC005032, h1]
  rw [mem_pre_qc_chain_fail]
  simp [List.forall_mem_cons, mem_npWhere, h1, h2, h3, h4, h5, herrlen, hi]

theorem mem_fail_NC005034 {pre spd zen qin cov exp : List ℚ} {n i : Nat}
    (h1 : pre.length = n) (h2 : spd.length = n) (h3 : zen.length = n)
    (h4 : qin.length = n) (h5 : cov.length = n) (h6 : exp.length = n)
    (hi : i < n) :
    i ∈ (pre_qc_NC005034 pre spd zen qin cov exp).2 ↔
      ¬(zenPass (zen.getD i 0) = true ∧ qiPass 90 (qin.getD i 0) = true ∧
        prePassBand 15000 30000 (pre.getD i 0) = true ∧
        covPass (cov.getD i 0) = true ∧
        errNormPass ((errNormVec spd exp).getD i 0) = true) := by
  have herrlen : (errNormVec spd exp).length = n := by
    rw [errNormVec_length]
    exact h6
  simp only [pre_qc_NC005034, h1]
  rw [mem_pre_qc_chain_fail]
  simp [List.forall_mem_cons, mem_npWhere, h1, h2, h3, h4, h5, herrlen, hi]

/-- Claim C7: the pressure check fails exactly when pressure is below the
variant floor (15000 Pa for NC005030, 70000 Pa for NC005032) or outside
the band [15000, 30000] Pa for NC005034; values exactly at a floor or band
boundary pass.  The last three conjuncts place the check inside the
respective screens: for an observation passing every other check, idxFail
membership is equivalent to the pressure condition. -/
theorem C7_pressure_floor :
    (∀ v : ℚ, prePassMin 15000 v = false ↔ v < 15000) ∧
    (∀ v : ℚ, prePassMin 70000 v = false ↔ v < 70000) ∧
    (∀ v : ℚ, prePassBand 15000 30000 v = false ↔
      (v < 15000 ∨ 30000 < v)) ∧
    prePassMin 15000 15000 = true ∧
    prePassMin 70000 70000 = true ∧
    prePassBand 15000 30000 15000 = true ∧
    prePassBand 15000 30000 30000 = true ∧
    (∀ (pre spd zen qin cov exp : List ℚ) (n i : Nat),
      pre.length = n → spd.length = n → zen.length = n → qin.length = n →
      cov.length = n → exp.length = n → i < n →
      zenPass (zen.getD i 0) = true → qiPass 90 (qin.getD i 0) = true →
      covPass (cov.getD i 0) = true →
      errNormPass ((errNormVec spd exp).getD i 0) = true →
      (i ∈ (pre_qc_NC005030 pre spd zen qin cov exp).2 ↔
        pre.getD i 0 < 15000)) ∧
    (∀ (pre spd zen qin cov exp : List ℚ) (n i : Nat),
      pre.length = n → spd.length = n → zen.length = n → qin.length = n →
      cov.length = n → exp.length = n → i < n →
      zenPass (zen.getD i 0) = true → qiPass 90 (qin.getD i 0) = true →
      covPass (cov.getD i 0) = true →
      errNormPass ((errNormVec spd exp).getD i 0) = true →
      (i ∈ (pre_qc_NC005032 pre spd zen qin cov exp).2 ↔
        pre.getD i 0 < 70000)) ∧
    (∀ (pre spd zen qin cov exp : List ℚ) (n i : Nat),
      pre.length = n → spd.length = n → zen.length = n → qin.length = n →
      cov.length = n → exp.length = n → i < n →
      zenPass (zen.getD i 0) = true → qiPass 90 (qin.getD i 0) = true →
      covPass (cov.getD i 0) = true →
      errNormPass ((errNormVec spd exp).getD i 0) = true →
      (i ∈ (pre_qc_NC005034 pre spd zen qin cov exp).2 ↔
        (pre.getD i 0 < 15000 ∨ 30000 < pre.getD i 0))) := by
  refine ⟨?_, ?_, ?_, ?_, ?_, ?_, ?_, ?_, ?_, ?_⟩
  · intro v
    simp [prePassMin, not_le]
  · intro v
    simp [prePassMin, not_le]
  · intro v
    simp only [prePassBand, Bool.and_eq_false_iff, decide_eq_false_iff_not,
      not_le]
  · norm_num [prePassMin]
  · norm_num [prePassMin]
  · norm_num [prePassBand]
  · norm_num [prePassBand]
  · intro pre spd zen qin cov exp n i h1 h2 h3 h4 h5 h6 hi hz hq hc he
    rw [mem_fail_NC005030 h1 h2 h3 h4 h5 h6 hi]
    have hp : prePassMin 15000 (pre.getD i 0) = true ↔
        15000 ≤ pre.getD i 0 := by simp [prePassMin]
    constructor
    · intro hn
      by_contra hlt
      push_neg at hlt
      exact hn ⟨hz, hq, hp.mpr hlt, hc, he⟩
    · rintro hlt ⟨_, _, hpre, _, _⟩
      exact absurd (hp.mp hpre) (not_le.mpr hlt)
  · intro pre spd zen qin cov exp n i h1 h2 h3 h4 h5 h6 hi hz hq hc he
    rw [mem_fail_NC005032 h1 h2 h3 h4 h5 h6 hi]
    have hp : prePassMin 70000 (pre.getD i 0) = true ↔
        70000 ≤ pre.getD i 0 := by simp [prePassMin]
    constructor
    · intro hn
      by_contra hlt
      push_neg at hlt
      exact hn ⟨hz, hq, hp.mpr hlt, hc, he⟩
    · rintro hlt ⟨_, _, hpre, _, _⟩
      exact absurd (hp.mp hpre) (not_le.mpr hlt)
  · intro pre spd zen qin cov exp n i h1 h2 h3 h4 h5 h6 hi hz hq hc he
    rw [mem_fail_NC005034 h1 h2 h3 h4 h5 h6 hi]
    have hp : prePassBand 15000 30000 (pre.getD i 0) = true ↔
        (15000 ≤ pre.getD i 0 ∧ pre.getD i 0 ≤ 30000) := by
      simp [prePassBand]
    constructor
    · intro hn
      by_contra hout
      push_neg at hout
      exact hn ⟨hz, hq, hp.mpr ⟨hout.1, hout.2⟩, hc, he⟩
    · rintro hout ⟨_, _, hpre, _, _⟩
      rcases hout with hlt | hgt
      · exact absurd (hp.mp hpre).1 (not_le.mpr hlt)
      · exact absurd (hp.mp hpre).2 (not_le.mpr hgt)

/-- Witness for C7: a one-observation NC005030 batch with pressure 0 and all
other checks passing lands in idxFail. -/
theorem C7_pressure_floor_witness :
    0 ∈ (pre_qc_NC005030 [(0 : ℚ)] [20] [10] [95] [0.1] [50]).2 := by
  have h := C7_pressure_floor.2.2.2.2.2.2.2.1 [(0 : ℚ)] [20] [10] [95] [0.1]
    [50] 1 0 rfl rfl rfl rfl rfl rfl (by norm_num)
    (by norm_num [zenPass]) (by norm_num [qiPass])
    (by norm_num [covPass]) (by norm_num [errNormVec, errNormPass])
  exact h.mpr (by norm_num)

/- Dynamic quality-indicator column resolution of the JMA variants
(process_NC005044, lines 1012-1027; shared verbatim by process_NC005045
and process_NC005046). -/

/-- Missing-value sentinel: z = 1.0E+10 * np.ones((np.shape(x)[0],)). -/
def missingValue : ℚ := 1.0e10

/-- One iteration i of the column loop: evaluate np.unique(y[:, i]); a
multi-valued unique array makes the python truth test
np.unique(...) == 102 raise (ambiguous truth value); a single-valued
unique array equal to 102 selects column i of x as the new z; anything
else keeps z. -/
def resolveStep (x y : List (List ℚ)) (z : List ℚ) (i : Nat) :
    Except String (List ℚ) :=
  let u := npUnique (column y i)
  if 1 < u.length then Except.error ("truth value ambiguous")
  else if u = [102] then Except.ok (column x i)
  else Except.ok z

/-- The resolution loop for i in range(3), unrolled: z starts as the
missing-value vector over the row count of x. -/
def resolveQualityIndicator (x y : List (List ℚ)) : Except String (List ℚ) :=
  Except.bind (resolveStep x y (List.replicate x.length missingValue) 0)
    (fun z1 => Except.bind (resolveStep x y z1 1)
      (fun z2 => resolveStep x y z2 2))

theorem bind_ok_eval {ε α β : Type} (a : α) (f : α → Except ε β) :
    Except.bind (Except.ok a) f = f a := rfl

theorem dedup_of_all_eq {α : Type} [DecidableEq α] {l : List α} {t : α}
    (hne : l ≠ []) (hall : ∀ v ∈ l, v = t) : l.dedup = [t] := by
  induction l with
  | nil => cases hne rfl
  | cons a l ih =>
      have ha : a = t := hall a (by simp)
      cases l with
      | nil => simp [ha]
      | cons b l2 =>
          have hb : b = t := hall b (by simp)
          have hmem : a ∈ b :: l2 := by
            rw [ha, ← hb]
            exact List.mem_cons_self b l2
          rw [List.dedup_cons_of_mem hmem]
          exact ih (by simp) (fun v hv => hall v (List.mem_cons_of_mem a hv))

theorem npUnique_const {l : List ℚ} {t : ℚ} (hne : l ≠ [])
    (hall : ∀ v ∈ l, v = t) : npUnique l = [t] := by
  apply dedup_of_all_eq
  · intro h
    have hlen := length_sortList l
    rw [h] at hlen
    exact hne (List.length_eq_zero.mp hlen.symm)
  · intro v hv
    exact hall v (mem_sortList.mp hv)

theorem resolveStep_uniform (x : List (List ℚ)) {y : List (List ℚ)}
    (z : List ℚ) (i : Nat) {t : ℚ} (hne : y ≠ [])
    (hall : ∀ row ∈ y, row.getD i 0 = t) :
    resolveStep x y z i =
      if t = 102 then Except.ok (column x i) else Except.ok z := by
  have hcne : column y i ≠ [] := by
    intro h
    exact hne (List.map_eq_nil_iff.mp h)
  have hcall : ∀ v ∈ column y i, v = t := by
    intro v hv
    rcases List.mem_map.mp hv with ⟨row, hr, rfl⟩
    exact hall row hr
  have hu : npUnique (column y i) = [t] := npUnique_const hcne hcall
  simp only [resolveStep, hu, List.length_cons, List.length_nil]
  by_cases ht : t = 102
  · simp [ht]
  · simp [ht]

/-- Claim C4: for the JMA-style variants (NC005044, NC005045, NC005046),
when every candidate tag column is uniform, the resolution selects the
column whose generating-application tag equals 102 and the resolved
quality-indicator vector equals that column of the packed value array for
every row; if no tag equals 102, every entry of the result is the
missing-value sentinel 1.0E+10 (not zero), which lies outside the
[85, 100] quality-indicator window and therefore fails the
quality-indicator check of those screens. -/
theorem C4_dynamic_column_resolution :
    ∀ x y : List (List ℚ), y ≠ [] →
      (∀ i : Nat, i < 3 → ∀ r1 ∈ y, ∀ r2 ∈ y, r1.getD i 0 = r2.getD i 0) →
      ((∀ j : Nat, j < 3 → (∀ row ∈ y, row.getD j 0 = 102) →
        (∀ i : Nat, i < 3 → i ≠ j → ∀ row ∈ y, row.getD i 0 ≠ 102) →
        resolveQualityIndicator x y = Except.ok (column x j)) ∧
      ((∀ i : Nat, i < 3 → ∀ row ∈ y, row.getD i 0 ≠ 102) →
        resolveQualityIndicator x y =
          Except.ok (List.replicate x.length missingValue) ∧
        missingValue = 1.0e10 ∧ missingValue ≠ 0 ∧
        qiPass 85 missingValue = false)) := by
  intro x y hne huni
  rcases hy : y with _ | ⟨r0, ys⟩
  · exact absurd hy hne
  rw [← hy]
  have hr0 : r0 ∈ y := by
    rw [hy]
    exact List.mem_cons_self r0 ys
  have hall : ∀ i : Nat, i < 3 → ∀ row ∈ y, row.getD i 0 = r0.getD i 0 :=
    fun i hi row hr => huni i hi row hr r0 hr0
  constructor
  · intro j hj h102 hother
    have hstep102 : ∀ z : List ℚ, resolveStep x y z j = Except.ok (column x j) := by
      intro z
      rw [resolveStep_uniform x z j hne h102]
      simp
    have hstepkeep : ∀ (i : Nat), i < 3 → i ≠ j →
        ∀ z : List ℚ, resolveStep x y z i = Except.ok z := by
      intro i hi hij z
      rw [resolveStep_uniform x z i hne (hall i hi)]
      rw [if_neg (hother i hi hij r0 hr0)]
    have hj3 : j = 0 ∨ j = 1 ∨ j = 2 := by omega
    rcases hj3 with rfl | rfl | rfl
    · rw [resolveQualityIndicator, hstep102, bind_ok_eval,
        hstepkeep 1 (by omega) (by omega), bind_ok_eval,
        hstepkeep 2 (by omega) (by omega)]
    · rw [resolveQualityIndicator, hstepkeep 0 (by omega) (by omega),
        bind_ok_eval, hstep102, bind_ok_eval,
        hstepkeep 2 (by omega) (by omega)]
    · rw [resolveQualityIndicator, hstepkeep 0 (by omega) (by omega),
        bind_ok_eval, hstepkeep 1 (by omega) (by omega), bind_ok_eval,
        hstep102]
  · intro hnone
    have hstepkeep : ∀ (i : Nat), i < 3 →
        ∀ z : List ℚ, resolveStep x y z i = Except.ok z := by
      intro i hi z
      rw [resolveStep_uniform x z i hne (hall i hi)]
      rw [if_neg (hnone i hi r0 hr0)]
    refine ⟨?_, rfl, by norm_num [missingValue], by norm_num [qiPass, missingValue]⟩
    rw [resolveQualityIndicator, hstepkeep 0 (by omega), bind_ok_eval,
      hstepkeep 1 (by omega), bind_ok_eval, hstepkeep 2 (by omega)]

/-- Witness for C4: a one-row packed array whose middle tag column is 102. -/
theorem C4_dynamic_column_resolution_witness :
    resolveQualityIndicator [[5, 6, 7]] [[101, 102, 103]] =
      Except.ok [(6 : ℚ)] := by
  have huni : ∀ i : Nat, i < 3 → ∀ r1 ∈ [[(101 : ℚ), 102, 103]],
      ∀ r2 ∈ [[(101 : ℚ), 102, 103]], r1.getD i 0 = r2.getD i 0 := by
    intro i _ r1 hr1 r2 hr2
    simp only [List.mem_singleton] at hr1 hr2
    rw [hr1, hr2]
  have h102 : ∀ row ∈ [[(101 : ℚ), 102, 103]], row.getD 1 0 = 102 := by
    intro row hr
    simp only [List.mem_singleton] at hr
    rw [hr]
    norm_num
  have hother : ∀ i : Nat, i < 3 → i ≠ 1 →
      ∀ row ∈ [[(101 : ℚ), 102, 103]], row.getD i 0 ≠ 102 := by
    intro i hi hne1 row hr
    simp only [List.mem_singleton] at hr
    subst hr
    have hi3 : i = 0 ∨ i = 1 ∨ i = 2 := by omega
    rcases hi3 with rfl | rfl | rfl
    · norm_num
    · exact absurd rfl hne1
    · norm_num
  have h := (C4_dynamic_column_resolution [[5, 6, 7]] [[101, 102, 103]]
    (by simp) huni).1 1 (by omega) h102 hother
  rw [h]
  norm_num [column]

/- The zero-check variant process_NC005080 (NOAA LEO IR AMVs). -/

/-- preQC of process_NC005080: no checks, preQC = np.ones over the
windComputationMethod length. -/
def process_NC005080_preQC (wcm : List ℚ) : List Int :=
  List.replicate wcm.length 1

/-- observationType of process_NC005080: obType = -1 * np.ones, then
obType[np.where(wcm == 1)] = 244. -/
def process_NC005080_obType (wcm : List ℚ) : List Int :=
  scatter (List.replicate wcm.length (-1))
    (npWhere wcm (fun v => decide (v = 1))) 244

/-- Counterexample to C5 as stated: a one-observation batch whose
windComputationMethod is 2 gets observationType -1, not the constant
244, so observationType is not independent of the method values. -/
theorem C5_counterexample :
    process_NC005080_obType [2] = [-1] ∧ ((-1 : Int) ≠ 244) := by
  constructor
  · have hw : npWhere [(2 : ℚ)] (fun v => decide (v = 1)) = [] := by
      norm_num [npWhere, List.filter]
    simp only [process_NC005080_obType, hw]
    decide
  · decide

/-- Claim C5 (amended): for the zero-check variant NC005080 the preQC
vector is +1 for every row, and observationType is 244 exactly at the
rows whose wind-computation-method value is 1, with the unclassified
sentinel -1 elsewhere. -/
theorem C5_amended_polar_obtype :
    ∀ wcm : List ℚ,
      (process_NC005080_preQC wcm).length = wcm.length ∧
      (process_NC005080_obType wcm).length = wcm.length ∧
      ∀ i : Nat, i < wcm.length →
        (process_NC005080_preQC wcm).getD i 0 = 1 ∧
        (process_NC005080_obType wcm).getD i 0 =
          if wcm.getD i 0 = 1 then 244 else -1 := by
  intro wcm
  have hL : (process_NC005080_obType wcm).length = wcm.length := by
    simp [process_NC005080_obType, scatter]
  refine ⟨by simp [process_NC005080_preQC], hL, ?_⟩
  intro i hi
  constructor
  · have hlen : i < (process_NC005080_preQC wcm).length := by
      simpa [process_NC005080_preQC] using hi
    rw [List.getD_eq_getElem _ _ hlen]
    simp [process_NC005080_preQC]
  · have hlen : i < (process_NC005080_obType wcm).length := by
      rw [hL]
      exact hi
    rw [List.getD_eq_getElem _ _ hlen]
    simp only [process_NC005080_obType, scatter, List.getElem_map,
      List.getElem_range, List.length_replicate]
    by_cases hv : wcm.getD i 0 = 1
    · have hmem : i ∈ npWhere wcm (fun v => decide (v = 1)) := by
        apply mem_npWhere.mpr
        refine ⟨hi, ?_⟩
        simp only [decide_eq_true_eq]
        exact hv
      rw [if_pos hmem, if_pos hv]
    · rw [if_neg, if_neg hv]
      · simp [List.getD_eq_getElem, List.length_replicate, hi]
      · intro hmem
        exact hv (by simpa using (mem_npWhere.mp hmem).2)

/-- Witness for C5 (amended) at a concrete two-observation batch. -/
theorem C5_amended_polar_obtype_witness :
    (0 : Nat) < ([(1 : ℚ), 2]).length ∧
    (process_NC005080_preQC [(1 : ℚ), 2]).getD 0 0 = 1 ∧
    (process_NC005080_obType [(1 : ℚ), 2]).getD 0 0 =
      if (([(1 : ℚ), 2]).getD 0 0 = 1) then 244 else -1 := by
  refine ⟨by norm_num, ?_⟩
  exact (C5_amended_polar_obtype [(1 : ℚ), 2]).2.2 0 (by norm_num)

/- Aggregation loop of extract_bulk_stats.py: the per-tank try block either
appends the batch fields to the module-level accumulator arrays or, on any
exception, prints a warning and appends nothing. -/

/-- One tank-extraction result batch, with the fields extract_bulk_stats.py
reads from the returned dictionary. -/
structure AmvBatch where
  latitude : List ℚ
  longitude : List ℚ
  pressure : List ℚ
  windSpeed : List ℚ
  windDirection : List ℚ
  year : List ℚ
  month : List ℚ
  day : List ℚ
  hour : List ℚ
  minute : List ℚ
  observationType : List Int
  preQC : List Int

/-- The module-level accumulator arrays of extract_bulk_stats.py. -/
structure AggState where
  obLat : List ℚ
  obLon : List ℚ
  obPre : List ℚ
  obSpd : List ℚ
  obDir : List ℚ
  obYr : List ℚ
  obMon : List ℚ
  obDay : List ℚ
  obHr : List ℚ
  obMin : List ℚ
  obTyp : List ℚ
  obPQC : List ℚ

/-- Error kinds of the specification: DataUnavailable for a query path
absent from a file, Configuration for an unknown variant identifier. -/
inductive TankError where
  | dataUnavailable : TankError
  | configuration : TankError

/-- The append block of the try statement (np.append of every field onto
its master array; the int-typed observationType and preQC upcast to the
float master arrays). -/
def appendTank (s : AggState) (b : AmvBatch) : AggState where
  obLat := s.obLat ++ b.latitude
  obLon := s.obLon ++ b.longitude
  obPre := s.obPre ++ b.pressure
  obSpd := s.obSpd ++ b.windSpeed
  obDir := s.obDir ++ b.windDirection
  obYr := s.obYr ++ b.year
  obMon := s.obMon ++ b.month
  obDay := s.obDay ++ b.day
  obHr := s.obHr ++ b.hour
  obMin := s.obMin ++ b.minute
  obTyp := s.obTyp ++ b.observationType.map (fun z => (z : ℚ))
  obPQC := s.obPQC ++ b.preQC.map (fun z => (z : ℚ))

/-- The diagnostic printed by the except branch. -/
def warnMsg (tankName : String) : String :=
  "warning: " ++ tankName ++ " was not processed due to errors"

/-- Whether a tank-extraction outcome raised. -/
def tankFailed (r : Except TankError AmvBatch) : Bool :=
  match r with
  | Except.ok _ => false
  | Except.error _ => true

/-- The body of one loop iteration: append the batch on success, record the
warning and keep the accumulators untouched on failure. -/
def processTankResult (acc : AggState × List String) (tankName : String)
    (r : Except TankError AmvBatch) : AggState × List String :=
  match r with
  | Except.ok b => (appendTank acc.1 b, acc.2)
  | Except.error _ => (acc.1, acc.2 ++ [warnMsg tankName])

/-- The loop for tankName in tankNameList of extract_bulk_stats.py. -/
def extract_bulk_loop (tanks : List String)
    (ext : String → Except TankError AmvBatch)
    (acc : AggState × List String) : AggState × List String :=
  tanks.foldl (fun a t => processTankResult a t (ext t)) acc

/-- Modelled from the spec: the dispatcher process_satwnd_tank called by
extract_bulk_stats.py line 52 is not among the sources under src (only its
callers are); per sections 4.1 and 7 of the specification, requesting an
unknown variant identifier fails with a Configuration error, while a known
variant runs its processor. -/
def process_satwnd_tank (procs : String → Option (Except TankError AmvBatch))
    (tankName : String) : Except TankError AmvBatch :=
  match procs tankName with
  | some r => r
  | none => Except.error TankError.configuration

/-- Claim C8: a failed tank-extraction call leaves every accumulator array
unchanged and records exactly one diagnostic, and the loop always carries
on: the final state is the fold of appendTank over the successful batches
only, and the log collects one warning per failed tank, so a failure never
aborts the run. -/
theorem C8_failed_tank_skipped :
    (∀ (acc : AggState × List String) (t : String) (e : TankError),
      processTankResult acc t (Except.error e) =
        (acc.1, acc.2 ++ [warnMsg t])) ∧
    (∀ (tanks : List String) (ext : String → Except TankError AmvBatch)
        (s : AggState) (log : List String),
      (extract_bulk_loop tanks ext (s, log)).1 =
        (tanks.filterMap (fun t => (ext t).toOption)).foldl appendTank s ∧
      (extract_bulk_loop tanks ext (s, log)).2 =
        log ++ (tanks.filter (fun t => tankFailed (ext t))).map warnMsg) := by
  constructor
  · intro acc t e
    rfl
  · intro tanks ext
    induction tanks with
    | nil =>
        intro s log
        simp [extract_bulk_loop]
    | cons t ts ih =>
        intro s log
        cases hr : ext t with
        | ok b =>
            have h1 : extract_bulk_loop (t :: ts) ext (s, log) =
                extract_bulk_loop ts ext (appendTank s b, log) := by
              simp [extract_bulk_loop, processTankResult, hr]
            rw [h1]
            constructor
            · rw [(ih (appendTank s b) log).1]
              simp [List.filterMap_cons, hr, Except.toOption]
            · rw [(ih (appendTank s b) log).2]
              simp [List.filter_cons, hr, tankFailed]
        | error e =>
            have h1 : extract_bulk_loop (t :: ts) ext (s, log) =
                extract_bulk_loop ts ext (s, log ++ [warnMsg t]) := by
              simp [extract_bulk_loop, processTankResult, hr]
            rw [h1]
            constructor
            · rw [(ih s (log ++ [warnMsg t])).1]
              simp [List.filterMap_cons, hr, Except.toOption]
            · rw [(ih s (log ++ [warnMsg t])).2]
              simp [List.filter_cons, hr, tankFailed, List.append_assoc]

/-- The accumulators at program start (all arrays empty). -/
def emptyAgg : AggState :=
  ⟨[], [], [], [], [], [], [], [], [], [], [], []⟩

/-- A concrete successful batch used in the C9 counterexample. -/
def batch1 : AmvBatch :=
  ⟨[1], [2], [3], [4], [5], [6], [7], [8], [9], [10], [244], [1]⟩

/-- A concrete processor table knowing only NC005080. -/
def procs1 : String → Option (Except TankError AmvBatch) :=
  fun t => if t = "NC005080" then some (Except.ok batch1) else none

/-- Counterexample to C9 as stated: the unrecognized tank name NC005072
produces a Configuration error from the dispatcher, yet the run is not
aborted: the loop records one warning for it and still appends the data of
the following tank NC005080. -/
theorem C9_counterexample :
    process_satwnd_tank procs1 ("NC005072") =
      Except.error TankError.configuration ∧
    extract_bulk_loop [("NC005072"), ("NC005080")]
        (fun u => process_satwnd_tank procs1 u) (emptyAgg, []) =
      (appendTank emptyAgg batch1, [warnMsg ("NC005072")]) := by
  constructor
  · rfl
  · rfl

/-- Claim C9 (amended): requesting an unknown variant identifier yields a
Configuration error from the dispatcher, but the blanket exception handler
of the aggregation loop treats it like any other tank failure: the variant
is skipped with one recorded warning and processing continues with the
remaining tanks; the run is not aborted. -/
theorem C9_amended_unknown_variant :
    ∀ (procs : String → Option (Except TankError AmvBatch)) (t : String)
      (rest : List String) (acc : AggState × List String),
      procs t = none →
      process_satwnd_tank procs t = Except.error TankError.configuration ∧
      extract_bulk_loop (t :: rest)
          (fun u => process_satwnd_tank procs u) acc =
        extract_bulk_loop rest (fun u => process_satwnd_tank procs u)
          (acc.1, acc.2 ++ [warnMsg t]) := by
  intro procs t rest acc hp
  have herr : process_satwnd_tank procs t =
      Except.error TankError.configuration := by
    simp [process_satwnd_tank, hp]
  refine ⟨herr, ?_⟩
  simp [extract_bulk_loop, processTankResult, herr]

/-- Witness for C9 (amended) at a concrete empty processor table. -/
theorem C9_amended_unknown_variant_witness :
    process_satwnd_tank (fun _ => none) ("NC005072") =
      Except.error TankError.configuration :=
  (C9_amended_unknown_variant (fun _ => none) ("NC005072") [] (emptyAgg, [])
    rfl).1

end SatwndBufr
